import Mathlib

/-!
Verification of the SIEM core pipeline (Shafiyullah/siem-cyber).

Shallow embedding of the Python sources:
  log_collector.py  — line parser (`parse_log_line`, `parse_common_format`, `is_ip`)
  llm_analysis.py   — heuristic enrichment (`_heuristic_analysis`, `extract_entities`)
  anomaly_detection.py — feature extraction and `detect_anomalies`
  rule_engine.py    — windowed frequency rules (`RuleEngine.evaluate`)
  siem_engine.py    — batch pipeline (`process_log_batch`, `generate_alert`,
                      `generate_recommendation`)
  storage.py        — `store_bulk_logs` (modelled as a trace action)
  api.py, config.py — `get_alerts` validation and API-key resolution

External library calls (json decoding, ISO timestamp parsing, md5, the vader
sentiment lexicon, the fitted isolation forest's per-row decision function)
are parameters of the embedding; everything else is translated directly from
the source.  Scores and thresholds (Python floats) are modelled as rationals.
-/

namespace Siem

/-! ### Python string primitives used by the sources -/

/-- Models Python `str.lower()` (ASCII case folding). -/
def pyLower (s : String) : String := String.mk (s.data.map Char.toLower)

/-- Models Python `s.startswith(pre)`. -/
def strStartsWith (s pre : String) : Bool := pre.data.isPrefixOf s.data

/-- Models Python `sep.join(parts)`. -/
def joinSep (sep : String) : List String → String
  | [] => ""
  | [x] => x
  | x :: xs => x ++ sep ++ joinSep sep xs

/-- One pass of Python's separator-less `str.split()`: `cur` is the token
being accumulated, in reverse. -/
def wsSplitAux : List Char → List Char → List String
  | [], cur => if cur.isEmpty then [] else [String.mk cur.reverse]
  | c :: rest, cur =>
      if c.isWhitespace then
        if cur.isEmpty then wsSplitAux rest []
        else String.mk cur.reverse :: wsSplitAux rest []
      else wsSplitAux rest (c :: cur)

/-- One pass of Python's `str.split(sep)` for a one-character separator:
empty parts are kept. -/
def charSplitAux (sep : Char) : List Char → List Char → List String
  | [], cur => [String.mk cur.reverse]
  | c :: rest, cur =>
      if c = sep then String.mk cur.reverse :: charSplitAux sep rest []
      else charSplitAux sep rest (c :: cur)

/-- Models Python `s.split(sep)` with a one-character separator. -/
def pySplitOn (s : String) (sep : Char) : List String := charSplitAux sep s.data []

/-- Models Python `s.strip()` (used implicitly by `int(s)`). -/
def pyStrip (s : String) : String :=
  String.mk ((s.data.dropWhile Char.isWhitespace).reverse.dropWhile
    Char.isWhitespace).reverse

/-- `hasSub pat l` is true when `pat` occurs as a contiguous run inside `l`. -/
def hasSub (pat : List Char) : List Char → Bool
  | [] => pat.isEmpty
  | c :: rest => pat.isPrefixOf (c :: rest) || hasSub pat rest

/-- Models Python `pat in s` (substring containment). -/
def containsSub (s pat : String) : Bool := hasSub pat.data s.data

/-- Models Python `s.split()` — split on whitespace runs, dropping empties. -/
def pySplitWs (s : String) : List String := wsSplitAux s.data []

/-- Digits of a decimal numeral to a natural number, `none` on a non-digit
or empty input. -/
def digitsToNat? (cs : List Char) : Option Nat :=
  if cs ≠ [] && cs.all Char.isDigit then
    some (cs.foldl (fun n c => 10 * n + (c.toNat - 48)) 0)
  else none

/-- Models Python `int(s)` on decimal strings: surrounding whitespace is
stripped, an optional sign precedes the digits; `none` models `ValueError`. -/
def pyInt? (s : String) : Option Int :=
  match (pyStrip s).data with
  | '+' :: rest => (digitsToNat? rest).map Int.ofNat
  | '-' :: rest => (digitsToNat? rest).map (fun n => -(n : Int))
  | cs => (digitsToNat? cs).map Int.ofNat

/-! ### log_collector.py -/

/-- `LogCollector.is_ip` (log_collector.py:77-84): split on `.`, four parts,
every part an integer in `0..255`; `ValueError` yields `false`. -/
def is_ip (s : String) : Bool :=
  let parts := pySplitOn s '.'
  parts.length == 4 &&
    parts.all (fun p =>
      match pyInt? p with
      | some n => decide (0 ≤ n) && decide (n ≤ 255)
      | none => false)

/-- Result of `LogCollector.parse_common_format`: the fields the returned
dict may carry. -/
structure CommonParsed where
  ip : Option String
  message : String
deriving DecidableEq, Repr

/-- `LogCollector.parse_common_format` (log_collector.py:65-75): split on
whitespace; only when there are at least 4 tokens and the first token is a
valid IPv4 dotted-quad, return `ip = parts[0]` and `message` the join of the
rest; otherwise `message = line`. -/
def parse_common_format (line : String) : CommonParsed :=
  let parts := pySplitWs line
  if parts.length ≥ 4 then
    if is_ip (parts.headD "") then
      { ip := some (parts.headD ""), message := joinSep " " parts.tail }
    else { ip := none, message := line }
  else { ip := none, message := line }

/-- The fields of a decoded JSON log record that the parser reads.  Models
the dict returned by `json.loads` for a line starting with `{`; field values
are modelled as strings. -/
structure JsonObj where
  timestamp : Option String
  message : Option String
  ip : Option String
deriving DecidableEq, Repr

/-- A parsed event as produced by `LogCollector.parse_log_line`. -/
structure Event where
  timestamp : String
  source : String
  raw_log : String
  message : Option String
  ip : Option String
  error : Option String
deriving DecidableEq, Repr

/-- `LogCollector.parse_log_line` (log_collector.py:38-63).  `jp` models
`json.loads` (`none` = decode error), `nowIso` models
`datetime.utcnow().isoformat()`.  A decode failure yields the
`error = "ParseError"` event; every line yields an event. -/
def parse_log_line (jp : String → Option JsonObj) (nowIso : String)
    (line source : String) : Event :=
  if strStartsWith line "\x7b" then
    match jp line with
    | some obj =>
        { timestamp := obj.timestamp.getD nowIso, source := source,
          raw_log := line, message := obj.message, ip := obj.ip, error := none }
    | none =>
        { timestamp := nowIso, source := source, raw_log := line,
          message := none, ip := none, error := some "ParseError" }
  else
    let cp := parse_common_format line
    { timestamp := nowIso, source := source, raw_log := line,
      message := some cp.message, ip := cp.ip, error := none }

/-! ### llm_analysis.py — heuristic enrichment (default `local` provider) -/

/-- Raw polarity scores of the external vader lexicon
(`SentimentIntensityAnalyzer.polarity_scores`): compound, pos, neg, neu. -/
structure PolarityScores where
  compound : Rat
  pos : Rat
  neg : Rat
  neu : Rat
deriving DecidableEq, Repr

/-- Sentiment label and score as built by `_heuristic_analysis`
(llm_analysis.py:51-57). -/
structure Sentiment where
  label : String
  score : Rat
deriving DecidableEq, Repr

/-- The sentiment mapping of `_heuristic_analysis` (llm_analysis.py:52-57). -/
def sentimentOf (ps : PolarityScores) : Sentiment :=
  if ps.compound ≥ 5/100 then { label := "POSITIVE", score := ps.pos }
  else if ps.compound ≤ -5/100 then { label := "NEGATIVE", score := ps.neg }
  else { label := "NEUTRAL", score := ps.neu }

/-- `LLMAnalyzer.severity_keywords` (llm_analysis.py:21-26), in the dict's
insertion order, which the severity loop follows. -/
def severity_keywords : List (String × List String) :=
  [("critical", ["critical", "fatal", "panic", "crash", "segmentation fault"]),
   ("high", ["error", "fail", "denied", "blocked", "attack", "exception", "unauthorized"]),
   ("medium", ["warning", "unusual", "suspicious", "timeout", "refused", "non-fatal"]),
   ("low", ["info", "debug", "normal", "success", "accepted", "connected"])]

/-- Does the lowercased message contain any keyword of the list?  Models
`any(keyword in msg_lower for keyword in keywords)`. -/
def hitsAny (msgLower : String) (keywords : List String) : Bool :=
  keywords.any (fun k => containsSub msgLower k)

/-- The severity loop of `_heuristic_analysis` (llm_analysis.py:59-65):
start at `low`, take the first level whose keyword list hits, stop there. -/
def severityOf (msg : String) : String :=
  let m := pyLower msg
  match severity_keywords.find? (fun lk => hitsAny m lk.2) with
  | some lk => lk.1
  | none => "low"

/-- `LLMAnalyzer.is_ip_like` (llm_analysis.py:145-153). -/
def is_ip_like (s : String) : Bool :=
  let parts := pySplitOn s '.'
  if parts.length == 4 then
    parts.all (fun p =>
      match pyInt? p with
      | some n => decide (0 ≤ n) && decide (n ≤ 255)
      | none => false)
  else false

/-- `LLMAnalyzer.extract_entities` (llm_analysis.py:132-143). -/
def extract_entities (text : String) : List String :=
  (pySplitWs text).filterMap (fun word =>
    if is_ip_like word then some ("IP:" ++ word)
    else if containsSub word "/" || containsSub word "\\" then some ("FILE:" ++ word)
    else if strStartsWith word "user:" || containsSub (pyLower word) "username" then
      some ("USER:" ++ word)
    else none)

/-- The record returned by `_heuristic_analysis` (llm_analysis.py:67-73). -/
structure Analysis where
  sentiment : Sentiment
  severity : String
  key_entities : List String
  summary : String
  recommendation : String
deriving DecidableEq, Repr

/-- `LLMAnalyzer._heuristic_analysis` (llm_analysis.py:47-73), with the vader
lexicon passed in as `polarity`.  With the default `local` provider,
`analyze_log_context` returns exactly this record. -/
def heuristic_analysis (polarity : String → PolarityScores) (msg : String) : Analysis :=
  { sentiment := sentimentOf (polarity msg),
    severity := severityOf msg,
    key_entities := extract_entities msg,
    summary :=
      if msg.data.length > 100 then String.mk (msg.data.take 97) ++ "..." else msg,
    recommendation := "Monitor for recurrence." }

/-! ### The pipeline's event dictionaries -/

/-- A log dictionary as it flows through `SIEMEngine.process_log_batch` and
`RuleEngine.evaluate`.  Absent dict keys are `none`; `anomaly_score`
(a Python float) is modelled as a rational. -/
structure SLog where
  timestamp : Option String
  source : Option String
  message : Option String
  raw_log : Option String
  ip : Option String
  severity : Option String
  ai : Option Analysis
  anomaly_score : Option Rat
deriving DecidableEq, Repr

/-- A log carrying only a message and an ip, as fed to the engine in the
repository's own tests. -/
def SLog.mk0 (msg : String) (ip : Option String) : SLog :=
  { timestamp := none, source := none, message := some msg, raw_log := none,
    ip := ip, severity := none, ai := none, anomaly_score := none }

/-- Models `log.get(field)` for string-valued fields, as used by the rule
engine's `group_by` lookup. -/
def SLog.getStr (l : SLog) : String → Option String
  | "timestamp" => l.timestamp
  | "source" => l.source
  | "message" => l.message
  | "raw_log" => l.raw_log
  | "ip" => l.ip
  | "severity" => l.severity
  | _ => none

/-! ### anomaly_detection.py -/

/-- The parts of a parsed ISO timestamp that `extract_features` reads
(`dt.hour`, `dt.weekday()`). -/
structure DateParts where
  hour : Nat
  weekday : Nat
deriving DecidableEq, Repr

/-- The external library calls of the embedding: `parseIso ts` models
`datetime.fromisoformat(ts.replace('Z', '+00:00'))` (`none` = raise),
`md5_32` the leading 32 bits of `hashlib.md5(...).hexdigest()` as an
integer, `polarity` the vader polarity scorer. -/
structure Ext where
  parseIso : String → Option DateParts
  md5_32 : String → Nat
  polarity : String → PolarityScores

/-- One row of the feature frame built by `AnomalyDetector.extract_features`
(anomaly_detection.py:18-54). -/
structure FeatureRow where
  hour : Nat
  day_of_week : Nat
  is_weekend : Nat
  source_hash : Nat
  ip_hash : Nat
  message_length : Nat
  word_count : Nat
  has_error : Nat
deriving DecidableEq, Repr

/-- `AnomalyDetector.extract_features` (anomaly_detection.py:18-54): one
feature row per log.  A missing or unparseable timestamp yields zeros for the
temporal features (the `except` branch, and `fillna(0)` for an absent key). -/
def extract_features (ext : Ext) (logs : List SLog) : List FeatureRow :=
  logs.map (fun log =>
    let temporal :=
      match log.timestamp with
      | some ts =>
          match ext.parseIso ts with
          | some dt => (dt.hour, dt.weekday, if dt.weekday ≥ 5 then 1 else 0)
          | none => (0, 0, 0)
      | none => (0, 0, 0)
    let message := log.message.getD ""
    { hour := temporal.1,
      day_of_week := temporal.2.1,
      is_weekend := temporal.2.2,
      source_hash := ext.md5_32 (log.source.getD ""),
      ip_hash :=
        match log.ip with
        | some ip => if ip = "" then 0 else ext.md5_32 ip
        | none => 0,
      message_length := message.data.length,
      word_count := (pySplitWs message).length,
      has_error :=
        if hitsAny (pyLower message) ["error", "fail", "exception", "denied"]
        then 1 else 0 })

/-- The column count of the pandas frame `extract_features` builds: the
`hour` / `day_of_week` / `is_weekend` keys are only set when a log has a
`timestamp` key (anomaly_detection.py:26), and `fillna(0)` fills missing
cells but creates no columns — so the three temporal columns exist exactly
when some log of the batch carries a timestamp, next to the 5 always-present
feature columns; an empty batch gives an empty frame. -/
def featureColCount (logs : List SLog) : Nat :=
  if logs.isEmpty then 0
  else if logs.any (fun l => l.timestamp.isSome) then 8 else 5

/-- The anomaly detector: `is_fitted`; the per-row score function
(standardisation plus `IsolationForest.decision_function`, both fixed at fit
time); and the column count of the training frame, recorded by the scaler at
fit time (`n_features_in_`). -/
structure Detector where
  is_fitted : Bool
  scoreRow : FeatureRow → Rat
  n_features : Nat

/-- `AnomalyDetector.detect_anomalies` (anomaly_detection.py:62-69): raises
`ValueError` when the model is not fitted; when fitted,
`scaler.transform` raises `ValueError` if the batch's feature-frame column
count differs from the fitted one (e.g. a batch with no timestamps against a
detector fitted on timestamped history); otherwise every feature row of the
batch is scored. -/
def detect_anomalies (ext : Ext) (d : Detector) (logs : List SLog) :
    Except String (List Rat) :=
  if d.is_fitted then
    if featureColCount logs = d.n_features then
      .ok ((extract_features ext logs).map d.scoreRow)
    else .error "ValueError: scaler.transform feature count mismatch"
  else .error "Model must be fitted before detecting anomalies"

/-! ### rule_engine.py -/

/-- Association-list lookup with a default, modelling `defaultdict` access
(read-only: the Python read also inserts the default, which is observably
equivalent for lookups). -/
def lookupD {α : Type} : List (String × α) → String → α → α
  | [], _, d => d
  | p :: rest, k, d => if p.1 = k then p.2 else lookupD rest k d

/-- Association-list update: replace the binding of `k`, or append it. -/
def updateA {α : Type} : List (String × α) → String → α → List (String × α)
  | [], k, v => [(k, v)]
  | p :: rest, k, v => if p.1 = k then (k, v) :: rest else p :: updateA rest k v

/-- A configured rule (rule_engine.py:22-29): name, condition closure,
threshold, window in seconds, grouping field. -/
structure Rule where
  name : String
  condition : SLog → Bool
  threshold : Nat
  window : Int
  group_by : String

/-- An alert dict built by `RuleEngine.evaluate` (rule_engine.py:54-60).
Note: the dict carries no `recommendation` key, modelled here as an `Option`
that `evaluate` always leaves `none`. -/
structure RAlert where
  rule_name : String
  severity : String
  message : String
  source_log : SLog
  timestamp : Option String
  recommendation : Option String
deriving DecidableEq, Repr

/-- The alert message f-string of rule_engine.py:57:
`Rule '<name>' triggered: <n> events in <window>s for <group_by> <key>`. -/
def ruleAlertMessage (r : Rule) (n : Nat) (key : String) : String :=
  "Rule '" ++ r.name ++ "' triggered: " ++ toString n ++ " events in " ++
    toString r.window ++ "s for " ++ r.group_by ++ " " ++ key

/-- The pruning loop of `evaluate` (rule_engine.py:48-50): pop from the front
while the head is strictly older than `window_start`. -/
def prune (windowStart : Int) : List Int → List Int
  | [] => []
  | t :: rest => if t < windowStart then prune windowStart rest else t :: rest

/-- Per-(rule, key) state: the deque of event-arrival instants.  The engine
state maps rule names to key-indexed deques (rule_engine.py:11). -/
abbrev KeyState := List (String × List Int)
abbrev EngState := List (String × KeyState)

/-- The body of `evaluate` for one rule (rule_engine.py:37-65): on a
condition match with a truthy group key, append `now`, prune the window,
and on reaching the threshold emit the alert and clear the deque. -/
def evalRule (r : Rule) (now : Int) (log : SLog) (ks : KeyState) :
    List RAlert × KeyState :=
  if r.condition log then
    match log.getStr r.group_by with
    | none => ([], ks)
    | some key =>
      if key = "" then ([], ks)
      else
        let ts := prune (now - r.window) (lookupD ks key [] ++ [now])
        if r.threshold ≤ ts.length then
          ([{ rule_name := r.name,
              severity := "high",
              message := ruleAlertMessage r ts.length key,
              source_log := log,
              timestamp := log.timestamp,
              recommendation := none }],
           updateA ks key [])
        else ([], updateA ks key ts)
  else ([], ks)

/-- `RuleEngine.evaluate` (rule_engine.py:31-67): one wall-clock read `now`,
then every configured rule in registration order, each reading and writing
its own entry of the state, alerts concatenated in registration order. -/
def evaluate (rules : List Rule) (now : Int) (log : SLog) (st : EngState) :
    List RAlert × EngState :=
  match rules with
  | [] => ([], st)
  | r :: rest =>
      let step := evalRule r now log (lookupD st r.name [])
      let tail := evaluate rest now log (updateA st r.name step.2)
      (step.1 ++ tail.1, tail.2)

/-- Feed a sequence of `(log, arrival instant)` events through `evaluate`,
collecting all alerts. -/
def runEvaluate (rules : List Rule) : List (SLog × Int) → EngState →
    List RAlert × EngState
  | [], st => ([], st)
  | e :: rest, st =>
      let step := evaluate rules e.2 e.1 st
      let tail := runEvaluate rules rest step.2
      (step.1 ++ tail.1, tail.2)

/-- The default "Brute Force Detection" rule installed at construction
(rule_engine.py:14-20). -/
def bruteForceRule : Rule :=
  { name := "Brute Force Detection",
    condition := fun log =>
      containsSub (pyLower (log.message.getD "")) "failed" ||
      containsSub (pyLower (log.message.getD "")) "auth failure",
    threshold := 3,
    window := 60,
    group_by := "ip" }

/-! ### siem_engine.py — the batch pipeline -/

/-- An anomaly alert dict as built by `SIEMEngine.generate_alert`
(siem_engine.py:111-124).  `timestamp` comes from the bare subscript
`log['timestamp']`, so a successfully built alert always carries one. -/
structure AAlert where
  timestamp : String
  severity : String
  anomaly_score : Option Rat
  source : Option String
  message : String
  ai_summary : String
  recommendation : String
deriving DecidableEq, Repr

/-- `SIEMEngine.generate_recommendation` (siem_engine.py:126-138). -/
def generate_recommendation (log : SLog) : String :=
  let severity := log.severity.getD "unknown"
  let message := pyLower (log.message.getD "")
  if containsSub message "denied" || containsSub message "blocked" ||
      containsSub message "unauthorized" then
    "Investigate potential unauthorized access attempt. Check source IP and user."
  else if containsSub message "error" || containsSub message "fail" ||
      containsSub message "exception" then
    "Check system health and application logs for root cause of this error."
  else if severity = "critical" then
    "Immediate investigation required - potential system crash or security incident."
  else
    "Monitor for similar patterns and investigate if recurring."

/-- `SIEMEngine.generate_alert` (siem_engine.py:111-124): the alert built for
an anomalous log.  The dict is built with the bare subscript
`log['timestamp']` (siem_engine.py:114), which raises `KeyError` when the log
has no timestamp key — then no alert is emitted and the exception
propagates. -/
def generate_alert (log : SLog) : Except String AAlert :=
  match log.timestamp with
  | none => .error "KeyError: timestamp"
  | some ts =>
      .ok { timestamp := ts,
            severity := log.severity.getD "high",
            anomaly_score := log.anomaly_score,
            source := log.source,
            message := log.message.getD (log.raw_log.getD ""),
            ai_summary := (log.ai.map Analysis.summary).getD "",
            recommendation := generate_recommendation log }

/-- An observable effect of `process_log_batch`, in emission order: the one
bulk-index round trip (storage.py:66-77), an anomaly alert
(siem_engine.py:96), or a rule alert (siem_engine.py:99-101). -/
inductive Action where
  | bulkStore (batch : List SLog)
  | anomalyAlert (a : AAlert)
  | ruleAlert (a : RAlert)
deriving DecidableEq, Repr

def Action.isAnomalyAlert : Action → Bool
  | .anomalyAlert _ => true
  | _ => false

def Action.isAlert : Action → Bool
  | .bulkStore _ => false
  | _ => true

/-- Step 1 of `process_log_batch` (siem_engine.py:62-72): attach the analysis
of the local provider and its severity to one log. -/
def analyzeLog (ext : Ext) (log : SLog) : SLog :=
  let a := heuristic_analysis ext.polarity (log.message.getD (log.raw_log.getD ""))
  { log with ai := some a, severity := some a.severity }

/-- The score-attaching loop (siem_engine.py:78-79): `zip` leaves the logs
beyond the score list untouched. -/
def attachScores : List SLog → List Rat → List SLog
  | [], _ => []
  | ls, [] => ls
  | l :: ls, s :: ss => { l with anomaly_score := some s } :: attachScores ls ss

/-- Step 2 of `process_log_batch` (siem_engine.py:74-86): score when fitted,
default every score to 0.0 when unfitted or when the detector raises. -/
def scoreBatch (ext : Ext) (det : Detector) (logs : List SLog) : List SLog :=
  if det.is_fitted then
    match detect_anomalies ext det logs with
    | .ok scores => attachScores logs scores
    | .error _ => logs.map (fun l => { l with anomaly_score := some 0 })
  else logs.map (fun l => { l with anomaly_score := some 0 })

/-- The alerting loop of step 3 (siem_engine.py:93-101): per log in batch
order, an anomaly alert when `log.get('anomaly_score', 0) < threshold`, then
the rule engine's alerts for that log.  `nows` supplies the wall-clock reads
of the successive `evaluate` calls.  A `KeyError` from `generate_alert`
aborts the loop before that log's alert, rule evaluation and the remaining
logs; the third component carries the propagating exception. -/
def alertPhase (threshold : Rat) (rules : List Rule) :
    List SLog → List Int → EngState → List Action × EngState × Option String
  | [], _, rst => ([], rst, none)
  | l :: ls, nows, rst =>
      if l.anomaly_score.getD 0 < threshold then
        match generate_alert l with
        | .error e => ([], rst, some e)
        | .ok a =>
            let step := evaluate rules (nows.headD 0) l rst
            let rest := alertPhase threshold rules ls nows.tail step.2
            (Action.anomalyAlert a :: (step.1.map Action.ruleAlert ++ rest.1),
             rest.2.1, rest.2.2)
      else
        let step := evaluate rules (nows.headD 0) l rst
        let rest := alertPhase threshold rules ls nows.tail step.2
        (step.1.map Action.ruleAlert ++ rest.1, rest.2.1, rest.2.2)

/-- `ElasticsearchStorage.store_bulk_logs` (storage.py:66-77) as a trace:
an empty action list issues no request, otherwise the whole batch goes in
one bulk round trip. -/
def store_bulk_logs (logs : List SLog) : List Action :=
  if logs = [] then [] else [.bulkStore logs]

/-- `SIEMEngine.process_log_batch` (siem_engine.py:57-101) as its trace of
observable effects plus the resulting rule-engine state: empty batches
return immediately; otherwise enrich, score, bulk-store, then alert per
event in collection order.  The third component is the exception (if any)
that aborts the alerting loop and propagates out of the call — the bulk
store has already happened by then. -/
def process_log_batch (ext : Ext) (det : Detector) (threshold : Rat)
    (rules : List Rule) (rst : EngState) (nows : List Int) (logs : List SLog) :
    List Action × EngState × Option String :=
  if logs = [] then ([], rst, none)
  else
    let analyzed := logs.map (analyzeLog ext)
    let scored := scoreBatch ext det analyzed
    let alerts := alertPhase threshold rules scored nows rst
    (store_bulk_logs scored ++ alerts.1, alerts.2.1, alerts.2.2)

/-! ### config.py and api.py -/

/-- `Config.API_KEY` (config.py:37-40): the `API_KEY` environment variable,
falling back to `"dev-secret-key"` when unset or empty (`if not API_KEY`). -/
def apiKeyConfig (env : Option String) : String :=
  match env with
  | some k => if k = "" then "dev-secret-key" else k
  | none => "dev-secret-key"

/-- `get_api_key` (api.py:19-23) together with the `APIKeyHeader` security
dependency: a missing `X-API-Key` header is rejected by the dependency with
403; a present one passes only when the configured key is truthy and equal. -/
def get_api_key (cfg : String) (header : Option String) : Except Nat String :=
  match header with
  | none => .error 403
  | some k => if cfg ≠ "" ∧ k = cfg then .ok k else .error 403

/-- One clause of the Elasticsearch bool/must query built by `get_alerts`. -/
inductive MustClause where
  | term (field value : String)
  | range (field gte : String)
deriving DecidableEq, Repr

/-- The search request issued by `get_alerts` (api.py:63-88): the must
clauses in build order, the timestamp sort, and the `size` passed to
`search_logs`. -/
structure ESQuery where
  must : List MustClause
  sortDescByTimestamp : Bool
  size : Nat
deriving DecidableEq, Repr

def allowed_severities : List String := ["low", "medium", "high", "critical"]

def time_ranges : List (String × String) :=
  [("1h", "now-1h/h"), ("6h", "now-6h/h"), ("24h", "now-24h/d"), ("7d", "now-7d/d")]

/-- Association-list lookup returning `Option`, modelling `dict.get`. -/
def lookupO {α : Type} : List (String × α) → String → Option α
  | [], _ => none
  | p :: rest, k => if p.1 = k then some p.2 else lookupO rest k

/-- `get_alerts` (api.py:57-89) after authentication: an empty or omitted
severity adds no filter (`if severity:`), a non-empty one is lowercased and
validated against `allowed_severities` (400 on miss); the time range
(query default `"1h"` when omitted) must be a key of `time_ranges` (400 on
miss); the search is issued sorted by timestamp descending with size 100. -/
def get_alerts (severity : Option String) (time_range : Option String) :
    Except Nat ESQuery :=
  let sevStep : Except Nat (List MustClause) :=
    match severity with
    | none => .ok []
    | some s =>
        if s = "" then .ok []
        else if pyLower s ∈ allowed_severities then
          .ok [.term "severity.keyword" (pyLower s)]
        else .error 400
  match sevStep with
  | .error e => .error e
  | .ok must1 =>
      match lookupO time_ranges (time_range.getD "1h") with
      | none => .error 400
      | some tf =>
          .ok { must := must1 ++ [.range "timestamp" tf],
                sortDescByTimestamp := true, size := 100 }

/-! ### Concrete instances used by witnesses and counterexamples -/

/-- A trivial external environment: every timestamp fails to parse, digests
are 0, the lexicon is silent.  Used only to evaluate the embedding at
concrete inputs. -/
def ext0 : Ext :=
  { parseIso := fun _ => none,
    md5_32 := fun _ => 0,
    polarity := fun _ => { compound := 0, pos := 0, neg := 0, neu := 0 } }

/-- An unfitted detector. -/
def det0 : Detector := { is_fitted := false, scoreRow := fun _ => 0, n_features := 0 }

/-- A detector fitted on timestamp-less history (a 5-column frame) with a
constant per-row score. -/
def det1 : Detector := { is_fitted := true, scoreRow := fun _ => -2, n_features := 5 }

/-- A detector fitted on timestamped history (an 8-column frame). -/
def det8 : Detector := { is_fitted := true, scoreRow := fun _ => -2, n_features := 8 }

/-- The brute-force event of the repository's own test
(tests/test_rule_engine.py:10-12). -/
def bruteLog : SLog := SLog.mk0 "password failed for user admin" (some "192.168.1.5")

/-- Three such events arriving at seconds 0, 5 and 10, inside one 60 s
window. -/
def bruteEvents : List (SLog × Int) := [(bruteLog, 0), (bruteLog, 5), (bruteLog, 10)]

/-- An innocuous log with no timestamp key, used to drive the pipeline at a
concrete input. -/
def plainLog : SLog := SLog.mk0 "hello" none

/-- The same innocuous log as the parser would deliver it: with a
timestamp. -/
def tsLog : SLog :=
  { SLog.mk0 "hello" none with timestamp := some "2026-01-01T00:00:00" }

/-- A JSON decoder that fails on every line (models `json.loads` raising on
everything it is given). -/
def jp0 : String → Option JsonObj := fun _ => none

/-- The anomaly alert that the unfit pipeline generates for `tsLog`. -/
def witAlert : AAlert :=
  { timestamp := "2026-01-01T00:00:00", severity := "low",
    anomaly_score := some 0, source := none, message := "hello",
    ai_summary := "hello",
    recommendation := "Monitor for similar patterns and investigate if recurring." }

/-! ## Theorems -/

/-- C10: authentication on the protected endpoints rejects with 403 exactly
when the `X-API-Key` header is absent or differs from the configured key, and
`Config.API_KEY` falls back to the non-empty literal `"dev-secret-key"`, so
the configured key is never empty and the endpoints are never left open. -/
theorem api_key_auth_characterization (env header : Option String) :
    apiKeyConfig env ≠ "" ∧
    (get_api_key (apiKeyConfig env) header = .error 403 ↔
      header ≠ some (apiKeyConfig env)) := by
  have hne : apiKeyConfig env ≠ "" := by
    cases env with
    | none => simp [apiKeyConfig]
    | some k =>
        by_cases h : k = ""
        · simp [apiKeyConfig, h]
        · simp [apiKeyConfig, h]
  refine ⟨hne, ?_⟩
  cases header with
  | none => simp [get_api_key]
  | some k =>
      by_cases hk : k = apiKeyConfig env
      · simp [get_api_key, hk, hne]
      · simp [get_api_key, hk, hne]

/-- C9 counterexample: the claim says a severity parameter outside
{low, medium, high, critical} yields HTTP 400, but the empty-string severity
is outside that set and the endpoint answers 200 (no filter), because
`if severity:` treats the empty string as absent. -/
theorem get_alerts_empty_severity_cex :
    ("" ∈ allowed_severities) = False ∧
    get_alerts (some "") none =
      .ok { must := [.range "timestamp" "now-1h/h"],
            sortDescByTimestamp := true, size := 100 } := by
  constructor
  · simp [allowed_severities]
  · rfl

/-- C9 amended: a non-empty severity whose lowercasing is outside the
allowed set yields 400 (an empty or omitted severity merely applies no
filter); an unknown time range yields 400; an omitted time range defaults to
the 1-hour filter; every accepted query sorts by timestamp descending with
size 100. -/
theorem get_alerts_validation :
    (∀ s tr, s ≠ "" → pyLower s ∉ allowed_severities →
      get_alerts (some s) tr = .error 400) ∧
    (∀ tr, lookupO time_ranges tr = none →
      get_alerts none (some tr) = .error 400) ∧
    get_alerts none none =
      .ok { must := [.range "timestamp" "now-1h/h"],
            sortDescByTimestamp := true, size := 100 } ∧
    (∀ sev tr q, get_alerts sev tr = .ok q →
      q.sortDescByTimestamp = true ∧ q.size = 100) := by
  refine ⟨?_, ?_, rfl, ?_⟩
  · intro s tr h1 h2
    simp [get_alerts, h1, h2]
  · intro tr h
    simp [get_alerts, h]
  · intro sev tr q h
    rcases sev with _ | s
    · rcases hl : lookupO time_ranges (tr.getD "1h") with _ | tf <;>
        simp [get_alerts, hl] at h
      obtain ⟨rfl⟩ := h
      exact ⟨rfl, rfl⟩
    · by_cases hs : s = ""
      · rcases hl : lookupO time_ranges (tr.getD "1h") with _ | tf <;>
          simp [get_alerts, hs, hl] at h
        obtain ⟨rfl⟩ := h
        exact ⟨rfl, rfl⟩
      · by_cases hm : pyLower s ∈ allowed_severities
        · rcases hl : lookupO time_ranges (tr.getD "1h") with _ | tf <;>
            simp [get_alerts, hs, hm, hl] at h
          obtain ⟨rfl⟩ := h
          exact ⟨rfl, rfl⟩
        · simp [get_alerts, hs, hm] at h

/-- C5 counterexample: the claim says every non-JSON line whose first token
is a valid IPv4 dotted-quad gets `ip` extracted; but the code only does so
when the line has at least 4 whitespace tokens, so `"10.0.0.1 failed login"`
(3 tokens, valid leading IP) keeps `ip` unset and `message` the whole
line. -/
theorem parse_common_format_short_line_cex :
    is_ip "10.0.0.1" = true ∧
    parse_common_format "10.0.0.1 failed login" =
      { ip := none, message := "10.0.0.1 failed login" } := by
  constructor
  · decide
  · decide

/-- C5 amended: the parser splits a non-JSON line on whitespace and extracts
`ip = token[0]`, `message = join(token[1:])` exactly when there are at least
4 tokens and the first is a valid IPv4 dotted-quad; otherwise the whole line
becomes `message`.  The spec's own example (≥ 4 tokens) behaves as stated. -/
theorem parse_common_format_spec :
    (∀ line,
      parse_common_format line =
        if 4 ≤ (pySplitWs line).length ∧ is_ip ((pySplitWs line).headD "") = true then
          { ip := some ((pySplitWs line).headD ""),
            message := joinSep " " (pySplitWs line).tail }
        else { ip := none, message := line }) ∧
    parse_common_format "10.0.0.1 failed login for user bob" =
      { ip := some "10.0.0.1", message := "failed login for user bob" } := by
  constructor
  · intro line
    by_cases h4 : 4 ≤ (pySplitWs line).length
    · by_cases hip : is_ip ((pySplitWs line).headD "") = true
      · simp [parse_common_format, h4, hip]
      · simp [parse_common_format, h4, hip]
    · simp [parse_common_format, h4]
  · decide

/-- C7: heuristic severity classification matches keywords case-insensitively
(the message is lowercased against lowercase keyword lists) in the precedence
order critical > high > medium > low, stopping at the first level with a hit
and defaulting to low; hence a message with both a critical and a lower-level
keyword maps to critical, and `"critical error: auth denied"` is critical. -/
theorem severity_precedence_first_hit :
    (∀ msg,
      severityOf msg =
        if hitsAny (pyLower msg)
            ["critical", "fatal", "panic", "crash", "segmentation fault"] then
          "critical"
        else if hitsAny (pyLower msg)
            ["error", "fail", "denied", "blocked", "attack", "exception",
             "unauthorized"] then "high"
        else if hitsAny (pyLower msg)
            ["warning", "unusual", "suspicious", "timeout", "refused",
             "non-fatal"] then "medium"
        else if hitsAny (pyLower msg)
            ["info", "debug", "normal", "success", "accepted", "connected"] then
          "low"
        else "low") ∧
    severityOf "critical error: auth denied" = "critical" := by
  constructor
  · intro msg
    simp only [severityOf, severity_keywords]
    cases h1 : hitsAny (pyLower msg)
        ["critical", "fatal", "panic", "crash", "segmentation fault"] <;>
      cases h2 : hitsAny (pyLower msg)
          ["error", "fail", "denied", "blocked", "attack", "exception",
           "unauthorized"] <;>
        cases h3 : hitsAny (pyLower msg)
            ["warning", "unusual", "suspicious", "timeout", "refused",
             "non-fatal"] <;>
          cases h4 : hitsAny (pyLower msg)
              ["info", "debug", "normal", "success", "accepted", "connected"] <;>
            simp [List.find?, h1, h2, h3, h4]
  · decide

/-- C4 counterexample: the claim says the scorer's batch scoring yields 0.0
per event when unfit "rather than failing"; in the code `detect_anomalies`
raises `ValueError` when unfit — it never returns the zeros itself. -/
theorem detect_anomalies_unfit_raises_cex :
    detect_anomalies ext0 det0 [plainLog] =
      .error "Model must be fitted before detecting anomalies" ∧
    (detect_anomalies ext0 det0 [plainLog]).toOption = none := by
  constructor
  · rfl
  · rfl

/-- C4 amended: when the detector is fit and the batch's feature frame has
the column count the scaler was fitted on, `detect_anomalies` returns one
real score per input event (length alignment); when fit but the column
counts differ (e.g. a batch with no timestamp keys against a detector
fitted on timestamped history), `scaler.transform` raises `ValueError`;
when unfit it raises `ValueError` outright, and the 0.0-per-event fallback
is applied by the caller (`process_log_batch`), not by the scorer. -/
theorem detect_anomalies_contract (ext : Ext) (d : Detector) (logs : List SLog) :
    (d.is_fitted = true → featureColCount logs = d.n_features →
      (detect_anomalies ext d logs).toOption.map List.length = some logs.length) ∧
    (d.is_fitted = true → featureColCount logs ≠ d.n_features →
      detect_anomalies ext d logs =
        .error "ValueError: scaler.transform feature count mismatch") ∧
    (d.is_fitted = false →
      detect_anomalies ext d logs =
        .error "Model must be fitted before detecting anomalies") ∧
    (d.is_fitted = false →
      (scoreBatch ext d logs).map SLog.anomaly_score =
        List.replicate logs.length (some 0)) := by
  refine ⟨?_, ?_, ?_, ?_⟩
  · intro h hcc
    have hok : detect_anomalies ext d logs =
        .ok ((extract_features ext logs).map d.scoreRow) := by
      simp [detect_anomalies, h, hcc]
    rw [hok]
    simp [extract_features, Except.toOption]
  · intro h hcc
    simp [detect_anomalies, h, hcc]
  · intro h
    simp [detect_anomalies, h]
  · intro h
    simp [scoreBatch, h, List.map_map, Function.comp]
    induction logs with
    | nil => rfl
    | cons l ls ih => simp [List.replicate, ih]

/-- Witness for C4's theorem at concrete detectors: a fitted 5-column scorer
on a matching one-event batch, the same batch against an 8-column scorer
(column mismatch), and the unfitted detector. -/
theorem detect_anomalies_contract_witness :
    (detect_anomalies ext0 det1 [plainLog]).toOption.map List.length = some 1 ∧
    detect_anomalies ext0 det8 [plainLog] =
      .error "ValueError: scaler.transform feature count mismatch" ∧
    detect_anomalies ext0 det0 [plainLog] =
      .error "Model must be fitted before detecting anomalies" ∧
    (scoreBatch ext0 det0 [plainLog]).map SLog.anomaly_score =
      List.replicate 1 (some 0) := by
  refine ⟨?_, ?_, ?_, ?_⟩
  · simpa using (detect_anomalies_contract ext0 det1 [plainLog]).1 rfl (by decide)
  · exact (detect_anomalies_contract ext0 det8 [plainLog]).2.1 rfl (by decide)
  · exact (detect_anomalies_contract ext0 det0 [plainLog]).2.2.1 rfl
  · simpa using (detect_anomalies_contract ext0 det0 [plainLog]).2.2.2 rfl

/-- C6 counterexample: the claim says every input line yields an event with
non-empty `raw_log`; the empty line (a blank line stripped by the collector)
yields `raw_log = ""`. -/
theorem parse_log_line_empty_raw_log_cex :
    (parse_log_line jp0 "2026-01-01T00:00:00" "" "/var/log/syslog").raw_log = "" :=
  rfl

/-- C6 amended: `parse_log_line` is total — every line yields an event whose
`source` and `raw_log` are exactly the inputs (hence non-empty whenever the
inputs are), whose `timestamp` is the decoded record's when present and the
non-empty current time otherwise, and a JSON decode error yields exactly the
`error = "ParseError"` event. -/
theorem parse_log_line_total_fields (jp : String → Option JsonObj)
    (nowIso line source : String)
    (hnow : nowIso ≠ "") (hline : line ≠ "") (hsource : source ≠ "")
    (hts : ∀ obj t, jp line = some obj → obj.timestamp = some t → t ≠ "") :
    (parse_log_line jp nowIso line source).source = source ∧
    (parse_log_line jp nowIso line source).raw_log = line ∧
    (parse_log_line jp nowIso line source).timestamp ≠ "" ∧
    (parse_log_line jp nowIso line source).source ≠ "" ∧
    (parse_log_line jp nowIso line source).raw_log ≠ "" ∧
    (strStartsWith line "\x7b" = true → jp line = none →
      parse_log_line jp nowIso line source =
        { timestamp := nowIso, source := source, raw_log := line,
          message := none, ip := none, error := some "ParseError" }) := by
  unfold parse_log_line
  by_cases hs : strStartsWith line "\x7b" = true
  · cases hjp : jp line with
    | none => simp [hs, hjp, hnow, hline, hsource]
    | some obj =>
        cases hob : obj.timestamp with
        | none => simp [hs, hjp, hob, hnow, hline, hsource]
        | some t =>
            have ht : t ≠ "" := hts obj t hjp hob
            simp [hs, hjp, hob, hnow, hline, hsource, ht]
  · simp [hs, hnow, hline, hsource]

/-- Witness for C6's theorem at a concrete line, source and decoder. -/
theorem parse_log_line_total_fields_witness :
    (parse_log_line jp0 "2026-01-01T00:00:00"
      "10.0.0.1 failed login for user bob" "/var/log/auth.log").source =
        "/var/log/auth.log" ∧
    (parse_log_line jp0 "2026-01-01T00:00:00"
      "10.0.0.1 failed login for user bob" "/var/log/auth.log").raw_log =
        "10.0.0.1 failed login for user bob" ∧
    (parse_log_line jp0 "2026-01-01T00:00:00"
      "10.0.0.1 failed login for user bob" "/var/log/auth.log").timestamp ≠ "" ∧
    (parse_log_line jp0 "2026-01-01T00:00:00"
      "10.0.0.1 failed login for user bob" "/var/log/auth.log").source ≠ "" ∧
    (parse_log_line jp0 "2026-01-01T00:00:00"
      "10.0.0.1 failed login for user bob" "/var/log/auth.log").raw_log ≠ "" ∧
    (strStartsWith "10.0.0.1 failed login for user bob" "\x7b" = true →
      jp0 "10.0.0.1 failed login for user bob" = none →
      parse_log_line jp0 "2026-01-01T00:00:00"
        "10.0.0.1 failed login for user bob" "/var/log/auth.log" =
        { timestamp := "2026-01-01T00:00:00", source := "/var/log/auth.log",
          raw_log := "10.0.0.1 failed login for user bob",
          message := none, ip := none, error := some "ParseError" }) :=
  parse_log_line_total_fields jp0 "2026-01-01T00:00:00"
    "10.0.0.1 failed login for user bob" "/var/log/auth.log"
    (by decide) (by decide) (by decide)
    (by intro obj t h ht; simp [jp0] at h)

/-- Helper: the logs scored by an unfitted detector all carry the 0.0
sentinel. -/
theorem scoreBatch_unfit_score (ext : Ext) (det : Detector) (ls : List SLog)
    (h : det.is_fitted = false) :
    ∀ l ∈ scoreBatch ext det ls, l.anomaly_score = some 0 := by
  intro l hl
  simp [scoreBatch, h] at hl
  obtain ⟨l', _, rfl⟩ := hl
  rfl

/-- Helper: the alerting loop emits no anomaly alert when no log's score is
below the threshold. -/
theorem alertPhase_no_anomaly (thr : Rat) (rules : List Rule) :
    ∀ (ls : List SLog) (nows : List Int) (rst : EngState),
      (∀ l ∈ ls, ¬ (l.anomaly_score.getD 0 < thr)) →
      (alertPhase thr rules ls nows rst).1.filter Action.isAnomalyAlert = [] := by
  intro ls
  induction ls with
  | nil => intro nows rst _; rfl
  | cons l ls ih =>
      intro nows rst h
      have hl : ¬ (l.anomaly_score.getD 0 < thr) := h l (by simp)
      have hrest := ih nows.tail
        (evaluate rules (nows.headD 0) l rst).2 (fun x hx => h x (by simp [hx]))
      simp only [alertPhase, if_neg hl, List.filter_append, hrest,
        List.append_nil]
      simp [List.filter_map, Action.isAnomalyAlert, List.filter_eq_nil_iff]

/-- C2 counterexample: the claim says an unfit scorer yields zero anomaly
alerts regardless of the configured threshold; with a positive threshold
(here 1.0) the 0.0 sentinel satisfies `score < threshold` and a one-event
batch — the event timestamped, as the parser delivers them — emits one
anomaly alert through the engine's default rule set. -/
theorem unfit_positive_threshold_alerts_cex :
    det0.is_fitted = false ∧
    ((process_log_batch ext0 det0 1 [bruteForceRule] [] [0] [tsLog]).1.filter
      Action.isAnomalyAlert).length = 1 := by
  exact ⟨rfl, by decide⟩

/-- C2 amended: with an unfit scorer every event carries the 0.0 sentinel,
so a batch produces zero anomaly alerts whenever the configured threshold is
at most 0 (as the default −0.5 is); a positive threshold however fires the
check on every unscored event, emitting an alert for each timestamped one. -/
theorem unfit_scorer_no_anomaly_alerts (ext : Ext) (det : Detector)
    (thr : Rat) (rules : List Rule) (rst : EngState) (nows : List Int)
    (logs : List SLog)
    (hunfit : det.is_fitted = false) (hthr : thr ≤ 0) :
    (process_log_batch ext det thr rules rst nows logs).1.filter
      Action.isAnomalyAlert = [] := by
  by_cases hne : logs = []
  · simp [process_log_batch, hne]
  · simp only [process_log_batch, if_neg hne, List.filter_append]
    have h1 : (store_bulk_logs (scoreBatch ext det (logs.map (analyzeLog ext)))).filter
        Action.isAnomalyAlert = [] := by
      unfold store_bulk_logs
      split
      · rfl
      · simp [Action.isAnomalyAlert]
    have h2 : (alertPhase thr rules (scoreBatch ext det (logs.map (analyzeLog ext)))
        nows rst).1.filter Action.isAnomalyAlert = [] := by
      apply alertPhase_no_anomaly
      intro l hl
      rw [scoreBatch_unfit_score ext det (logs.map (analyzeLog ext)) hunfit l hl]
      simpa using hthr
    rw [h1, h2]
    rfl

/-- Witness for C2's theorem: the default-style negative threshold on a
concrete one-event batch. -/
theorem unfit_scorer_no_anomaly_alerts_witness :
    (process_log_batch ext0 det0 (-1) [bruteForceRule] [] [0] [tsLog]).1.filter
      Action.isAnomalyAlert = [] :=
  unfit_scorer_no_anomaly_alerts ext0 det0 (-1) [bruteForceRule] [] [0] [tsLog]
    rfl (by norm_num)

/-- Helper: attaching scores keeps the batch's length (the zip mutates in
place and leaves unscored logs in the list). -/
theorem attachScores_length :
    ∀ (ls : List SLog) (ss : List Rat), (attachScores ls ss).length = ls.length := by
  intro ls
  induction ls with
  | nil => intro ss; cases ss <;> simp [attachScores]
  | cons l ls ih =>
      intro ss
      cases ss with
      | nil => rfl
      | cons s ss => simp [attachScores, ih]

/-- Helper: attaching scores does not touch the analysis field. -/
theorem attachScores_map_ai :
    ∀ (ls : List SLog) (ss : List Rat),
      (attachScores ls ss).map SLog.ai = ls.map SLog.ai := by
  intro ls
  induction ls with
  | nil => intro ss; cases ss <;> simp [attachScores]
  | cons l ls ih =>
      intro ss
      cases ss with
      | nil => rfl
      | cons s ss => simp [attachScores, ih]

/-- Helper: attaching scores does not touch the severity field. -/
theorem attachScores_map_severity :
    ∀ (ls : List SLog) (ss : List Rat),
      (attachScores ls ss).map SLog.severity = ls.map SLog.severity := by
  intro ls
  induction ls with
  | nil => intro ss; cases ss <;> simp [attachScores]
  | cons l ls ih =>
      intro ss
      cases ss with
      | nil => rfl
      | cons s ss => simp [attachScores, ih]

/-- Helper: attaching scores does not touch the timestamp field. -/
theorem attachScores_map_timestamp :
    ∀ (ls : List SLog) (ss : List Rat),
      (attachScores ls ss).map SLog.timestamp = ls.map SLog.timestamp := by
  intro ls
  induction ls with
  | nil => intro ss; cases ss <;> simp [attachScores]
  | cons l ls ih =>
      intro ss
      cases ss with
      | nil => rfl
      | cons s ss => simp [attachScores, ih]

/-- Helper: scoring keeps the batch's length. -/
theorem scoreBatch_length (ext : Ext) (det : Detector) (ls : List SLog) :
    (scoreBatch ext det ls).length = ls.length := by
  by_cases h : det.is_fitted
  · by_cases hcc : featureColCount ls = det.n_features <;>
      simp [scoreBatch, h, detect_anomalies, hcc, attachScores_length]
  · simp [scoreBatch, h]

/-- Helper: scoring does not touch the analysis field. -/
theorem scoreBatch_map_ai (ext : Ext) (det : Detector) (ls : List SLog) :
    (scoreBatch ext det ls).map SLog.ai = ls.map SLog.ai := by
  by_cases h : det.is_fitted
  · by_cases hcc : featureColCount ls = det.n_features <;>
      simp [scoreBatch, h, detect_anomalies, hcc, attachScores_map_ai,
        List.map_map, Function.comp]
  · simp [scoreBatch, h, List.map_map, Function.comp]

/-- Helper: scoring does not touch the severity field. -/
theorem scoreBatch_map_severity (ext : Ext) (det : Detector) (ls : List SLog) :
    (scoreBatch ext det ls).map SLog.severity = ls.map SLog.severity := by
  by_cases h : det.is_fitted
  · by_cases hcc : featureColCount ls = det.n_features <;>
      simp [scoreBatch, h, detect_anomalies, hcc, attachScores_map_severity,
        List.map_map, Function.comp]
  · simp [scoreBatch, h, List.map_map, Function.comp]

/-- Helper: scoring does not touch the timestamp field. -/
theorem scoreBatch_map_timestamp (ext : Ext) (det : Detector) (ls : List SLog) :
    (scoreBatch ext det ls).map SLog.timestamp = ls.map SLog.timestamp := by
  by_cases h : det.is_fitted
  · by_cases hcc : featureColCount ls = det.n_features <;>
      simp [scoreBatch, h, detect_anomalies, hcc, attachScores_map_timestamp,
        List.map_map, Function.comp]
  · simp [scoreBatch, h, List.map_map, Function.comp]

/-- Helper: a fitted detector whose column count mismatches the batch also
leaves the 0.0 sentinel on every log (the `except` branch of
siem_engine.py:80-83). -/
theorem scoreBatch_fitted_mismatch_score (ext : Ext) (det : Detector)
    (ls : List SLog) (h : det.is_fitted = true)
    (hcc : featureColCount ls ≠ det.n_features) :
    ∀ l ∈ scoreBatch ext det ls, l.anomaly_score = some 0 := by
  intro l hl
  simp [scoreBatch, h, detect_anomalies, hcc] at hl
  obtain ⟨l', _, rfl⟩ := hl
  rfl

/-- Helper: the feature-frame column count only depends on the batch's
timestamp fields. -/
theorem featureColCount_congr (ls₁ ls₂ : List SLog)
    (h : ls₁.map SLog.timestamp = ls₂.map SLog.timestamp) :
    featureColCount ls₁ = featureColCount ls₂ := by
  have hany : ∀ (ls : List SLog),
      (ls.any fun l => l.timestamp.isSome) =
        (ls.map SLog.timestamp).any Option.isSome := by
    intro ls
    induction ls with
    | nil => rfl
    | cons a as ih => simp [ih]
  have hisE : ls₁.isEmpty = ls₂.isEmpty := by
    cases ls₁ <;> cases ls₂ <;> simp_all
  unfold featureColCount
  rw [hisE, hany, hany, h]

/-- Helper: enrichment does not change which logs carry timestamps. -/
theorem featureColCount_map_analyzeLog (ext : Ext) (logs : List SLog) :
    featureColCount (logs.map (analyzeLog ext)) = featureColCount logs := by
  apply featureColCount_congr
  rw [List.map_map]
  rfl

/-- Helper: every action emitted by the alerting loop is an alert (never a
storage round trip). -/
theorem alertPhase_all_alerts (thr : Rat) (rules : List Rule) :
    ∀ (ls : List SLog) (nows : List Int) (rst : EngState),
      ∀ a ∈ (alertPhase thr rules ls nows rst).1, a.isAlert = true := by
  intro ls
  induction ls with
  | nil => intro nows rst a ha; simp [alertPhase] at ha
  | cons l ls ih =>
      intro nows rst a ha
      simp only [alertPhase] at ha
      by_cases hc : l.anomaly_score.getD 0 < thr
      · rw [if_pos hc] at ha
        cases hga : generate_alert l with
        | error e => rw [hga] at ha; simp at ha
        | ok b =>
            rw [hga] at ha
            simp only [List.mem_cons, List.mem_append] at ha
            rcases ha with rfl | ha | ha
            · rfl
            · obtain ⟨r, _, rfl⟩ := List.mem_map.mp ha
              rfl
            · exact ih nows.tail _ a ha
      · rw [if_neg hc] at ha
        simp only [List.mem_append] at ha
        rcases ha with ha | ha
        · obtain ⟨r, _, rfl⟩ := List.mem_map.mp ha
          rfl
        · exact ih nows.tail _ a ha

/-- Helper: when every log of the batch carries a timestamp, the alerting
loop never hits the `KeyError` of `generate_alert` and runs to the end of
the batch. -/
theorem alertPhase_no_abort (thr : Rat) (rules : List Rule) :
    ∀ (ls : List SLog) (nows : List Int) (rst : EngState),
      (∀ l ∈ ls, l.timestamp.isSome = true) →
      (alertPhase thr rules ls nows rst).2.2 = none := by
  intro ls
  induction ls with
  | nil => intro nows rst _; rfl
  | cons l ls ih =>
      intro nows rst h
      simp only [alertPhase]
      by_cases hc : l.anomaly_score.getD 0 < thr
      · rw [if_pos hc]
        cases hga : generate_alert l with
        | error e =>
            exfalso
            have hls := h l (by simp)
            cases hl : l.timestamp with
            | none => rw [hl] at hls; simp at hls
            | some ts => simp [generate_alert, hl] at hga
        | ok b =>
            simp only
            exact ih nows.tail _ (fun x hx => h x (by simp [hx]))
      · rw [if_neg hc]
        exact ih nows.tail _ (fun x hx => h x (by simp [hx]))

/-- C3: for a non-empty batch of parser-shaped events (every event carries a
timestamp, the data-model invariant after the parser stage) the pipeline's
trace is exactly one bulk-store of the whole enriched batch (same length,
every event analyzed, 0.0 scores throughout when the scorer is unfit or when
the fitted scorer fails on a feature-column mismatch) followed only by alert
actions, generated by iterating that batch in collection order to its end
(no aborting exception). -/
theorem process_log_batch_order (ext : Ext) (det : Detector) (thr : Rat)
    (rules : List Rule) (rst : EngState) (nows : List Int) (logs : List SLog)
    (hne : logs ≠ []) (hts : ∀ l ∈ logs, l.timestamp.isSome = true) :
    ∃ batch rest,
      (process_log_batch ext det thr rules rst nows logs).1 =
        Action.bulkStore batch :: rest ∧
      batch.length = logs.length ∧
      (∀ l ∈ batch, l.ai.isSome = true) ∧
      (det.is_fitted = false → ∀ l ∈ batch, l.anomaly_score = some 0) ∧
      (det.is_fitted = true → featureColCount logs ≠ det.n_features →
        ∀ l ∈ batch, l.anomaly_score = some 0) ∧
      rest = (alertPhase thr rules batch nows rst).1 ∧
      (∀ a ∈ rest, a.isAlert = true) ∧
      (process_log_batch ext det thr rules rst nows logs).2.2 = none := by
  have hbt : ∀ l ∈ scoreBatch ext det (logs.map (analyzeLog ext)),
      l.timestamp.isSome = true := by
    intro l hl
    have hmem : l.timestamp ∈
        (scoreBatch ext det (logs.map (analyzeLog ext))).map SLog.timestamp :=
      List.mem_map_of_mem SLog.timestamp hl
    rw [scoreBatch_map_timestamp, List.map_map] at hmem
    obtain ⟨x, hx, hEq⟩ := List.mem_map.mp hmem
    rw [← hEq]
    exact hts x hx
  refine ⟨scoreBatch ext det (logs.map (analyzeLog ext)),
    (alertPhase thr rules (scoreBatch ext det (logs.map (analyzeLog ext)))
      nows rst).1, ?_, ?_, ?_, ?_, ?_, rfl, ?_, ?_⟩
  · have hlen : (scoreBatch ext det (logs.map (analyzeLog ext))).length =
        logs.length := by
      rw [scoreBatch_length, List.length_map]
    have hsc : scoreBatch ext det (logs.map (analyzeLog ext)) ≠ [] := by
      apply List.ne_nil_of_length_pos
      rw [hlen]
      exact List.length_pos.mpr hne
    simp only [process_log_batch, if_neg hne, store_bulk_logs, if_neg hsc]
    rfl
  · rw [scoreBatch_length, List.length_map]
  · intro l hl
    have hmem : l.ai ∈ (scoreBatch ext det (logs.map (analyzeLog ext))).map
        SLog.ai := List.mem_map_of_mem SLog.ai hl
    rw [scoreBatch_map_ai, List.map_map] at hmem
    obtain ⟨x, _, hEq⟩ := List.mem_map.mp hmem
    rw [← hEq]
    rfl
  · intro h
    exact scoreBatch_unfit_score ext det (logs.map (analyzeLog ext)) h
  · intro h hcc
    apply scoreBatch_fitted_mismatch_score ext det _ h
    rw [featureColCount_map_analyzeLog]
    exact hcc
  · exact alertPhase_all_alerts thr rules _ nows rst
  · simp only [process_log_batch, if_neg hne]
    exact alertPhase_no_abort thr rules _ nows rst hbt

/-- Witness for C3's theorem: a concrete one-event timestamped batch through
the unfit pipeline with the engine's default rule. -/
theorem process_log_batch_order_witness :
    ∃ batch rest,
      (process_log_batch ext0 det0 1 [bruteForceRule] [] [0] [tsLog]).1 =
        Action.bulkStore batch :: rest ∧
      batch.length = [tsLog].length ∧
      (∀ l ∈ batch, l.ai.isSome = true) ∧
      (det0.is_fitted = false → ∀ l ∈ batch, l.anomaly_score = some 0) ∧
      (det0.is_fitted = true → featureColCount [tsLog] ≠ det0.n_features →
        ∀ l ∈ batch, l.anomaly_score = some 0) ∧
      rest = (alertPhase 1 [bruteForceRule] batch [0] []).1 ∧
      (∀ a ∈ rest, a.isAlert = true) ∧
      (process_log_batch ext0 det0 1 [bruteForceRule] [] [0] [tsLog]).2.2 =
        none :=
  process_log_batch_order ext0 det0 1 [bruteForceRule] [] [0] [tsLog]
    (by decide) (by decide)

/-- Helper: the heuristic severity always lands in the enumerated set. -/
theorem severityOf_mem (msg : String) :
    severityOf msg ∈ ["low", "medium", "high", "critical"] := by
  rcases hf : (severity_keywords.find? fun lk => hitsAny (pyLower msg) lk.2)
    with _ | lk
  · simp [severityOf, hf]
  · have hmem := List.mem_of_find?_eq_some hf
    simp only [severity_keywords, List.mem_cons, List.not_mem_nil, or_false]
      at hmem
    simp only [severityOf, hf]
    rcases hmem with rfl | rfl | rfl | rfl <;> simp

/-- Helper: the orchestrator's recommendation policy never returns the empty
string. -/
theorem generate_recommendation_ne_empty (log : SLog) :
    generate_recommendation log ≠ "" := by
  simp only [generate_recommendation]
  split_ifs <;> decide

/-- Helper: every alert built by one rule's evaluation step carries severity
`high`, no recommendation, the rule's name, and the count/window message. -/
theorem evalRule_shape (r : Rule) (now : Int) (log : SLog) (ks : KeyState) :
    ∀ al ∈ (evalRule r now log ks).1,
      al.severity = "high" ∧ al.recommendation = none ∧ al.rule_name = r.name ∧
      ∃ n key, al.message = ruleAlertMessage r n key := by
  intro al hal
  simp only [evalRule] at hal
  by_cases hc : r.condition log
  · rw [if_pos hc] at hal
    cases hk : log.getStr r.group_by with
    | none => rw [hk] at hal; simp at hal
    | some key =>
        rw [hk] at hal
        dsimp only at hal
        by_cases hke : key = ""
        · rw [if_pos hke] at hal; simp at hal
        · rw [if_neg hke] at hal
          by_cases hth : r.threshold ≤
              (prune (now - r.window) (lookupD ks key [] ++ [now])).length
          · rw [if_pos hth] at hal
            simp only [List.mem_singleton] at hal
            subst hal
            exact ⟨rfl, rfl, rfl, _, key, rfl⟩
          · rw [if_neg hth] at hal; simp at hal
  · rw [if_neg hc] at hal; simp at hal

/-- Helper: `evaluate` only emits rule alerts of the shape above, each for a
configured rule. -/
theorem evaluate_shape (now : Int) (log : SLog) :
    ∀ (rules : List Rule) (st : EngState), ∀ al ∈ (evaluate rules now log st).1,
      ∃ r ∈ rules, al.severity = "high" ∧ al.recommendation = none ∧
        al.rule_name = r.name ∧ ∃ n key, al.message = ruleAlertMessage r n key := by
  intro rules
  induction rules with
  | nil => intro st al hal; simp [evaluate] at hal
  | cons r rest ih =>
      intro st al hal
      simp only [evaluate, List.mem_append] at hal
      rcases hal with h | h
      · obtain ⟨h1, h2, h3, hmsg⟩ := evalRule_shape r now log (lookupD st r.name []) al h
        exact ⟨r, by simp, h1, h2, h3, hmsg⟩
      · obtain ⟨r', hr', hrest⟩ := ih _ al h
        exact ⟨r', by simp [hr'], hrest⟩

/-- Helper: a successfully built anomaly alert (no `KeyError`) carries the
log's recommendation and defaulted severity. -/
theorem generate_alert_ok_fields (log : SLog) (al : AAlert)
    (h : generate_alert log = .ok al) :
    al.recommendation = generate_recommendation log ∧
    al.severity = log.severity.getD "high" := by
  cases hl : log.timestamp with
  | none => simp [generate_alert, hl] at h
  | some ts =>
      simp only [generate_alert, hl, Except.ok.injEq] at h
      rw [← h]
      exact ⟨rfl, rfl⟩

/-- Helper: every action of the alerting loop is either the successfully
built anomaly alert of one of its logs or a rule alert of the canonical
shape. -/
theorem alertPhase_mem_shape (thr : Rat) (rules : List Rule) :
    ∀ (ls : List SLog) (nows : List Int) (rst : EngState),
      ∀ a ∈ (alertPhase thr rules ls nows rst).1,
        (∃ l ∈ ls, ∃ al, generate_alert l = .ok al ∧
          a = Action.anomalyAlert al) ∨
        (∃ al, a = Action.ruleAlert al ∧ al.severity = "high" ∧
          al.recommendation = none ∧
          ∃ r ∈ rules, al.rule_name = r.name ∧
            ∃ n key, al.message = ruleAlertMessage r n key) := by
  intro ls
  induction ls with
  | nil => intro nows rst a ha; simp [alertPhase] at ha
  | cons l ls ih =>
      intro nows rst a ha
      simp only [alertPhase] at ha
      have hrest : ∀ nows' rst',
          a ∈ (alertPhase thr rules ls nows' rst').1 →
          (∃ x ∈ l :: ls, ∃ al, generate_alert x = .ok al ∧
            a = Action.anomalyAlert al) ∨
          (∃ al, a = Action.ruleAlert al ∧ al.severity = "high" ∧
            al.recommendation = none ∧
            ∃ r ∈ rules, al.rule_name = r.name ∧
              ∃ n key, al.message = ruleAlertMessage r n key) := by
        intro nows' rst' ha'
        rcases ih nows' rst' a ha' with h | h
        · obtain ⟨l', hl', hrest⟩ := h
          exact Or.inl ⟨l', by simp [hl'], hrest⟩
        · exact Or.inr h
      have hrule : ∀ al, al ∈ (evaluate rules (nows.headD 0) l rst).1 →
          a = Action.ruleAlert al →
          (∃ x ∈ l :: ls, ∃ al, generate_alert x = .ok al ∧
            a = Action.anomalyAlert al) ∨
          (∃ al, a = Action.ruleAlert al ∧ al.severity = "high" ∧
            al.recommendation = none ∧
            ∃ r ∈ rules, al.rule_name = r.name ∧
              ∃ n key, al.message = ruleAlertMessage r n key) := by
        intro al hal heq
        obtain ⟨r, hr, h1, h2, h3, hmsg⟩ :=
          evaluate_shape (nows.headD 0) l rules rst al hal
        exact Or.inr ⟨al, heq, h1, h2, r, hr, h3, hmsg⟩
      by_cases hc : l.anomaly_score.getD 0 < thr
      · rw [if_pos hc] at ha
        cases hga : generate_alert l with
        | error e => rw [hga] at ha; simp at ha
        | ok b =>
            rw [hga] at ha
            simp only [List.mem_cons, List.mem_append] at ha
            rcases ha with rfl | ha | ha
            · exact Or.inl ⟨l, by simp, b, hga, rfl⟩
            · obtain ⟨al, hal, rfl⟩ := List.mem_map.mp ha
              exact hrule al hal rfl
            · exact hrest nows.tail _ ha
      · rw [if_neg hc] at ha
        simp only [List.mem_append] at ha
        rcases ha with ha | ha
        · obtain ⟨al, hal, rfl⟩ := List.mem_map.mp ha
          exact hrule al hal rfl
        · exact hrest nows.tail _ ha

/-- Helper: every log of a scored, analyzed batch yields an in-set severity
for its anomaly alert. -/
theorem scored_severity (ext : Ext) (det : Detector) (logs : List SLog) :
    ∀ l ∈ scoreBatch ext det (logs.map (analyzeLog ext)),
      l.severity.getD "high" ∈ ["low", "medium", "high", "critical"] := by
  intro l hl
  have hmem : l.severity ∈
      (scoreBatch ext det (logs.map (analyzeLog ext))).map SLog.severity :=
    List.mem_map_of_mem _ hl
  rw [scoreBatch_map_severity, List.map_map] at hmem
  obtain ⟨x, _, hEq⟩ := List.mem_map.mp hmem
  have hx : l.severity =
      some (severityOf (x.message.getD (x.raw_log.getD ""))) := by
    rw [← hEq]; rfl
  rw [hx]
  simpa using severityOf_mem (x.message.getD (x.raw_log.getD ""))

/-- C8 counterexample: the claim says every emitted alert has a non-empty
recommendation, but the rule alert emitted on a brute-force burst carries no
recommendation key at all. -/
theorem rule_alert_no_recommendation_cex :
    ((runEvaluate [bruteForceRule] bruteEvents []).1.map
      RAlert.recommendation) = [none] := by decide

/-- C8 amended: every anomaly alert the pipeline emits (with the default
local analyzer) has a non-empty recommendation and a severity in the
enumerated set; every rule alert carries severity `high`, a configured
rule's name and the count/window message — but no recommendation field. -/
theorem alert_fields_invariant (ext : Ext) (det : Detector) (thr : Rat)
    (rules : List Rule) (rst : EngState) (nows : List Int) (logs : List SLog) :
    ∀ a ∈ (process_log_batch ext det thr rules rst nows logs).1,
      (∀ al, a = Action.anomalyAlert al →
        al.recommendation ≠ "" ∧
        al.severity ∈ ["low", "medium", "high", "critical"]) ∧
      (∀ al, a = Action.ruleAlert al →
        al.severity = "high" ∧ al.recommendation = none ∧
        ∃ r ∈ rules, al.rule_name = r.name ∧
          ∃ n key, al.message = ruleAlertMessage r n key) := by
  intro a ha
  by_cases hne : logs = []
  · simp [process_log_batch, hne] at ha
  · simp only [process_log_batch, if_neg hne, List.mem_append] at ha
    rcases ha with ha | ha
    · unfold store_bulk_logs at ha
      split at ha
      · simp at ha
      · simp only [List.mem_singleton] at ha
        subst ha
        constructor
        · intro al heq; cases heq
        · intro al heq; cases heq
    · rcases alertPhase_mem_shape thr rules _ nows rst a ha with h | h
      · obtain ⟨l, hl, b, hok, rfl⟩ := h
        constructor
        · intro al heq
          injection heq with h'
          subst h'
          obtain ⟨hrec, hsev⟩ := generate_alert_ok_fields l b hok
          rw [hrec, hsev]
          exact ⟨generate_recommendation_ne_empty l,
            scored_severity ext det logs l hl⟩
        · intro al heq; cases heq
      · obtain ⟨al', rfl, h1, h2, hr⟩ := h
        constructor
        · intro al heq; cases heq
        · intro al heq
          injection heq with h'
          subst h'
          exact ⟨h1, h2, hr⟩

/-- Witness for C8's theorem: the anomaly alert of a concrete unfit
one-event timestamped batch. -/
theorem alert_fields_invariant_witness :
    witAlert.recommendation ≠ "" ∧
    witAlert.severity ∈ ["low", "medium", "high", "critical"] :=
  (alert_fields_invariant ext0 det0 1 [bruteForceRule] [] [0] [tsLog]
    (Action.anomalyAlert witAlert) (by decide)).1 witAlert rfl

/-- Helper: looking up a key just written returns the written value. -/
theorem lookupD_updateA_self {α : Type} (l : List (String × α)) (k : String)
    (v d : α) : lookupD (updateA l k v) k d = v := by
  induction l with
  | nil => simp [updateA, lookupD]
  | cons p rest ih =>
      by_cases h : p.1 = k
      · simp [updateA, h, lookupD]
      · simp [updateA, h, lookupD, ih]

/-- Helper: pruning removes nothing when no element is older than the window
start. -/
theorem prune_eq_self (ws : Int) (l : List Int) (h : ∀ t ∈ l, ¬ t < ws) :
    prune ws l = l := by
  cases l with
  | nil => rfl
  | cons t rest => simp [prune, h t (by simp)]

/-- Helper: one matching evaluation step with group key `K` and no pruning
either clears the deque and emits one alert (threshold reached) or extends
the deque and emits none. -/
theorem evalRule_count (r : Rule) (now : Int) (log : SLog) (ks : KeyState)
    (K : String) (hc : r.condition log = true)
    (hk : log.getStr r.group_by = some K) (hK : K ≠ "")
    (hpr : prune (now - r.window) (lookupD ks K [] ++ [now]) =
      lookupD ks K [] ++ [now]) :
    if r.threshold ≤ (lookupD ks K [] ++ [now]).length then
      (evalRule r now log ks).1.length = 1 ∧
        (evalRule r now log ks).2 = updateA ks K []
    else
      (evalRule r now log ks).1.length = 0 ∧
        (evalRule r now log ks).2 = updateA ks K (lookupD ks K [] ++ [now]) := by
  simp only [evalRule, hc, if_true, hk]
  rw [if_neg hK, hpr]
  split
  · exact ⟨rfl, rfl⟩
  · exact ⟨rfl, rfl⟩

/-- Helper invariant for C1: feeding matching key-`K` events that are never
pruned, starting from a deque shorter than the threshold, yields exactly
`(deque + N) / threshold` alerts — the deque is cleared on each trigger. -/
theorem runEvaluate_single_rule_count (r : Rule) (K : String)
    (hT : 1 ≤ r.threshold) (hK : K ≠ "") :
    ∀ (events : List (SLog × Int)) (st : EngState),
      (∀ e ∈ events, r.condition e.1 = true) →
      (∀ e ∈ events, e.1.getStr r.group_by = some K) →
      (∀ x ∈ lookupD (lookupD st r.name []) K [],
        ∀ e ∈ events, ¬ (x < e.2 - r.window)) →
      (∀ e ∈ events, ∀ e2 ∈ events, ¬ (e.2 < e2.2 - r.window)) →
      (lookupD (lookupD st r.name []) K []).length < r.threshold →
      (runEvaluate [r] events st).1.length =
        ((lookupD (lookupD st r.name []) K []).length + events.length) /
          r.threshold := by
  intro events
  induction events with
  | nil =>
      intro st _ _ _ _ hlen
      simp [runEvaluate, Nat.div_eq_of_lt hlen]
  | cons e rest ih =>
      intro st hcond hkey hold hwin hlen
      obtain ⟨log, now⟩ := e
      have hc : r.condition log = true := hcond (log, now) (by simp)
      have hk : log.getStr r.group_by = some K := hkey (log, now) (by simp)
      have hTpos : 0 < r.threshold := hT
      have hpr : prune (now - r.window)
          (lookupD (lookupD st r.name []) K [] ++ [now]) =
          lookupD (lookupD st r.name []) K [] ++ [now] := by
        apply prune_eq_self
        intro t ht
        rcases List.mem_append.mp ht with h | h
        · exact hold t h (log, now) (by simp)
        · simp only [List.mem_singleton] at h
          rw [h]
          exact hwin (log, now) (by simp) (log, now) (by simp)
      have hstep := evalRule_count r now log (lookupD st r.name []) K hc hk hK hpr
      have hrunEq : (runEvaluate [r] ((log, now) :: rest) st).1.length =
          (evalRule r now log (lookupD st r.name [])).1.length +
          (runEvaluate [r] rest
            (updateA st r.name (evalRule r now log (lookupD st r.name [])).2)).1.length := by
        simp [runEvaluate, evaluate]
      have hlen1 : (lookupD (lookupD st r.name []) K [] ++ [now]).length =
          (lookupD (lookupD st r.name []) K []).length + 1 := by simp
      by_cases hth : r.threshold ≤
          (lookupD (lookupD st r.name []) K [] ++ [now]).length
      · rw [if_pos hth] at hstep
        obtain ⟨hcount, hstate⟩ := hstep
        have hexact : (lookupD (lookupD st r.name []) K []).length + 1 =
            r.threshold := by omega
        have htail := ih (updateA st r.name (updateA (lookupD st r.name []) K []))
          (fun e he => hcond e (List.mem_cons_of_mem _ he))
          (fun e he => hkey e (List.mem_cons_of_mem _ he))
          (by
            intro x hx
            rw [lookupD_updateA_self, lookupD_updateA_self] at hx
            simp at hx)
          (fun e he e2 he2 =>
            hwin e (List.mem_cons_of_mem _ he) e2 (List.mem_cons_of_mem _ he2))
          (by
            rw [lookupD_updateA_self, lookupD_updateA_self]
            simpa using hTpos)
        rw [lookupD_updateA_self, lookupD_updateA_self] at htail
        rw [hrunEq, hcount, hstate, htail]
        have harg : (lookupD (lookupD st r.name []) K []).length +
            (rest.length + 1) = rest.length + r.threshold := by omega
        simp only [List.length_nil, List.length_cons, Nat.zero_add]
        rw [harg, Nat.add_div_right _ hTpos]
        omega
      · rw [if_neg hth] at hstep
        obtain ⟨hcount, hstate⟩ := hstep
        have hnew : (lookupD (lookupD st r.name []) K [] ++ [now]).length <
            r.threshold := by omega
        have htail := ih (updateA st r.name (updateA (lookupD st r.name []) K
            (lookupD (lookupD st r.name []) K [] ++ [now])))
          (fun e he => hcond e (List.mem_cons_of_mem _ he))
          (fun e he => hkey e (List.mem_cons_of_mem _ he))
          (by
            intro x hx
            rw [lookupD_updateA_self, lookupD_updateA_self] at hx
            intro e he
            rcases List.mem_append.mp hx with h | h
            · exact hold x h e (List.mem_cons_of_mem _ he)
            · simp only [List.mem_singleton] at h
              rw [h]
              exact hwin (log, now) (by simp) e (List.mem_cons_of_mem _ he))
          (fun e he e2 he2 =>
            hwin e (List.mem_cons_of_mem _ he) e2 (List.mem_cons_of_mem _ he2))
          (by rw [lookupD_updateA_self, lookupD_updateA_self]; exact hnew)
        rw [lookupD_updateA_self, lookupD_updateA_self] at htail
        rw [hrunEq, hcount, hstate, htail]
        have harg : (lookupD (lookupD st r.name []) K [] ++ [now]).length +
            rest.length = (lookupD (lookupD st r.name []) K []).length +
            (rest.length + 1) := by omega
        simp only [List.length_cons]
        rw [harg]
        omega

/-- C1: an engine configured with a rule of threshold `T ≥ 1` and window `W`,
fed `N` events that match the rule's predicate and carry the same non-empty
group key `K`, all arriving within one window `W` of each other, emits
exactly `⌊N / T⌋` alerts: the timestamp deque is cleared on each trigger, so
each further alert needs `T` fresh events. -/
theorem ruleEngine_alert_count (r : Rule) (K : String)
    (events : List (SLog × Int))
    (hT : 1 ≤ r.threshold) (hK : K ≠ "")
    (hcond : ∀ e ∈ events, r.condition e.1 = true)
    (hkey : ∀ e ∈ events, e.1.getStr r.group_by = some K)
    (hwin : ∀ e ∈ events, ∀ e2 ∈ events, e.2 - e2.2 ≤ r.window) :
    (runEvaluate [r] events []).1.length = events.length / r.threshold := by
  have h := runEvaluate_single_rule_count r K hT hK events [] hcond hkey
    (by intro x hx; simp [lookupD] at hx)
    (by
      intro e he e2 he2
      have := hwin e2 he2 e he
      omega)
    (by simpa [lookupD] using hT)
  simpa [lookupD] using h

/-- Witness for C1's theorem: the repository's own brute-force scenario —
three matching events from one IP within 10 s trigger exactly one alert
(`⌊3 / 3⌋`). -/
theorem ruleEngine_alert_count_witness :
    (runEvaluate [bruteForceRule] bruteEvents []).1.length = 1 := by
  have h := ruleEngine_alert_count bruteForceRule "192.168.1.5" bruteEvents
    (by decide) (by decide) (by decide) (by decide) (by decide)
  exact h.trans (by decide)

end Siem
